import Mathlib

/-!
Shallow embedding of `write_to_bq/main.py` (functions `writeDfToBq` and
`writeDfToBq_with_merging`) together with proofs about the embedded code.

The remote warehouse (BigQuery) is modelled by an environment `Env` fixing the
outcome of every remote interaction of one invocation; the orchestration code
is embedded as a pure function from that environment (plus the Python-level
arguments) to an outcome, the ordered trace of remote calls, and the
caller-visible state after the call.
-/

namespace WriteToBq

/-- A BigQuery schema field descriptor: name, type and mode
(`NULLABLE` | `REQUIRED` | `REPEATED`). -/
structure SchemaField where
  name : String
  fieldType : String
  mode : String
deriving DecidableEq

/-- Logical dtype of a pandas column, at the granularity the source code
distinguishes (`select_dtypes(include=['float','int'])` vs the rest). -/
inductive Dtype where
  | floatT
  | intT
  | stringT
  | datetimeT
deriving DecidableEq

def Dtype.isNumeric : Dtype → Bool
  | .floatT => true
  | .intT => true
  | _ => false

/-- A pandas DataFrame, reduced to what the embedded code observes:
its ordered, named, typed columns. -/
structure DataFrame where
  cols : List (String × Dtype)
deriving DecidableEq

/-- Embeds `data.columns`. -/
def DataFrame.columns (data : DataFrame) : List String := data.cols.map Prod.fst

/-- Embeds `data.select_dtypes(include=['float','int']).columns`. -/
def selectNumericColumns (data : DataFrame) : List String :=
  (data.cols.filter (fun c => c.2.isNumeric)).map Prod.fst

/-- Embeds `data.select_dtypes(exclude=['float','int']).columns`. -/
def selectNonNumericColumns (data : DataFrame) : List String :=
  (data.cols.filter (fun c => !c.2.isNumeric)).map Prod.fst

/-- A Python value that is either a plain `list` of strings or a pandas
`Index` of strings.  `writeDfToBq_with_merging` holds its `cols_to_check` /
`cols_to_update` in such a value: the caller-supplied arguments are plain
lists, while the defaults inferred from `data.select_dtypes(...).columns`
are pandas Index objects. -/
inductive PyStrSeq where
  | pylist (xs : List String)
  | pindex (xs : List String)
deriving DecidableEq

def PyStrSeq.toList : PyStrSeq → List String
  | .pylist xs => xs
  | .pindex xs => xs

/-- Python `+` as it behaves on the values of line 162 of the source:
`list + list` concatenates; as soon as a pandas `Index` is involved the
operation is numpy element-wise string addition, broadcasting a length-1
operand, and raising `ValueError` for other length mismatches. -/
def pyAdd : PyStrSeq → PyStrSeq → Except String PyStrSeq
  | .pylist a, .pylist b => .ok (.pylist (a ++ b))
  | a, b =>
      let xs := a.toList
      let ys := b.toList
      if xs.length = ys.length then
        .ok (.pindex (List.zipWith (fun x y => x ++ y) xs ys))
      else if xs.length = 1 then
        .ok (.pindex (ys.map (fun y => xs.headD "" ++ y)))
      else if ys.length = 1 then
        .ok (.pindex (xs.map (fun x => x ++ ys.headD "")))
      else
        .error "ValueError: operands could not be broadcast together"

/-- Python `+=` on `cols_to_update`: in-place `extend` when it is a plain
list (the caller's own object is mutated), and plain rebinding
`x = x + y` when it is a pandas Index. -/
def pyIadd (a : PyStrSeq) (ext : List String) : Except String PyStrSeq :=
  match a with
  | .pylist xs => .ok (.pylist (xs ++ ext))
  | .pindex xs => pyAdd (.pindex xs) (.pylist ext)

/-- The `for field in fields_to_remove: table_schema.remove(field)` loop of
the source (lines 40-41 and 126-127): repeated `list.remove`, i.e. erasure
of the first matching occurrence. -/
def removeFields (table_schema fields_to_remove : List SchemaField) : List SchemaField :=
  fields_to_remove.foldl (fun s f => s.erase f) table_schema

/-- The schema-handling `try/except` block shared by both loaders
(lines 34-46 and 117-134): on a successful fetch the live schema is pruned
to the fields whose names occur among the dataset's columns and auto-detect
is disabled; any fetch failure is caught and degrades to auto-detect.
Returns `(job_config.schema, job_config.autodetect)`. -/
def reconcileSchema (fetched : Except String (List SchemaField))
    (columns : List String) : Option (List SchemaField) × Bool :=
  match fetched with
  | .ok table_schema =>
      let fields_to_remove := table_schema.filter (fun f => !(columns.contains f.name))
      (some (removeFields table_schema fields_to_remove), false)
  | .error _ => (none, true)

/-- Terminal state of a remote job, as observed through `job.result()` and
`job.errors`. -/
inductive JobResult where
  | success
  | failed (errors : List String)

/-- The remote environment of one invocation: the result of fetching the
destination table's schema, the realized staging-table schema, and the
terminal state of the three submitted jobs. -/
structure Env where
  liveSchema : Except String (List SchemaField)
  tempSchema : List SchemaField
  loadResult : JobResult
  mergeResult : JobResult
  deleteResult : JobResult

/-- One remote interaction, in submission order.  Query submissions carry
the stage suffix the source puts into the job id (`merge_data` /
`delete_temp_data`) together with the submitted SQL text. -/
inductive Event where
  | getSchema (table : String)
  | submitLoad (destination writeDisposition createDisposition : String)
      (autodetect : Bool) (schema : Option (List SchemaField))
      (loadedColumns : List String)
  | awaitJob (stage : String)
  | submitQuery (stage : String) (sql : String)
deriving DecidableEq

def Event.isSubmitQuery : Event → Bool
  | .submitQuery _ _ => true
  | _ => false

def Event.isSubmitLoad : Event → Bool
  | .submitLoad _ _ _ _ _ _ => true
  | _ => false

def Event.isAwait : Event → Bool
  | .awaitJob _ => true
  | _ => false

/-- Line 101: `cols_to_check` is the caller's list when non-empty, otherwise
the pandas Index of the dataset's non-numeric columns. -/
def effectiveColsToCheck (data : DataFrame) (cols_to_check : List String) : PyStrSeq :=
  if cols_to_check.length > 0 then .pylist cols_to_check
  else .pindex (selectNonNumericColumns data)

/-- Line 105: `cols_to_update` is the caller's list when non-empty, otherwise
the pandas Index of the dataset's numeric columns. -/
def effectiveColsToUpdate (data : DataFrame) (cols_to_update : List String) : PyStrSeq :=
  if cols_to_update.length > 0 then .pylist cols_to_update
  else .pindex (selectNumericColumns data)

/-- Line 137: `all_fields = [field.name for field in table_schema] if
table_schema else data.columns`.  Python truthiness: both `None` and the
empty list fall back to `data.columns`. -/
def allFields (table_schema : Option (List SchemaField)) (data : DataFrame) :
    List String :=
  match table_schema with
  | some s => if s.isEmpty then data.columns else s.map SchemaField.name
  | none => data.columns

/-- Lines 158-161: names of the staging-table schema fields whose mode is
`REPEATED`. -/
def repeated_fields (temp_table_schema : List SchemaField) : List String :=
  (temp_table_schema.filter (fun f => f.mode == "REPEATED")).map SchemaField.name

/-- Line 162: `cols_to_update += [col for col in all_fields if col not in
cols_to_check+cols_to_update]`, with Python `+` / `+=` semantics on the
list-or-Index values involved. -/
def extendedColsToUpdate (cols_to_check cols_to_update : PyStrSeq)
    (all_fields : List String) : Except String PyStrSeq :=
  match pyAdd cols_to_check cols_to_update with
  | .error msg => .error msg
  | .ok combined =>
      pyIadd cols_to_update (all_fields.filter (fun col => !(combined.toList.contains col)))

/-- One `target.<col> = source.<col>` equality. -/
def eqConjunct (col : String) : String := s!"target.{col} = source.{col}"

/-- Lines 165-166: the `ON`-clause conjunct list — one equality per column of
`cols_to_check`, then one per repeated staging field not already in
`cols_to_check`. -/
def on_clause_parts (cols_to_check repeatedFieldNames : List String) : List String :=
  cols_to_check.map eqConjunct ++
    (repeatedFieldNames.filter (fun col => !(cols_to_check.contains col))).map eqConjunct

/-- Line 167: the conjuncts joined by `"\nAND "`. -/
def on_clause (cols_to_check repeatedFieldNames : List String) : String :=
  String.intercalate "\nAND " (on_clause_parts cols_to_check repeatedFieldNames)

/-- Line 177: the `UPDATE SET` assignment list, joined by `", "`. -/
def updateSetClause (cols_to_update : List String) : String :=
  String.intercalate ", " (cols_to_update.map eqConjunct)

/-- Lines 169-186: the transactional MERGE statement text. -/
def merge_query (project_id dataset_id table_id : String)
    (cols_to_check cols_to_update repeatedFieldNames : List String) : String :=
  "\n    BEGIN\n        BEGIN TRANSACTION;\n            MERGE INTO `"
    ++ project_id ++ "." ++ dataset_id ++ "." ++ table_id
    ++ "` AS target\n            USING `"
    ++ project_id ++ "." ++ dataset_id ++ "." ++ table_id
    ++ "_temptable` AS source\n            ON "
    ++ on_clause cols_to_check repeatedFieldNames
    ++ "\n            WHEN MATCHED THEN\n            UPDATE SET\n                "
    ++ updateSetClause cols_to_update
    ++ "\n            WHEN NOT MATCHED THEN\n                INSERT ROW\n                ;"
    ++ "\n        COMMIT TRANSACTION;\n        "
    ++ "\n        EXCEPTION WHEN ERROR THEN\n            SELECT @@error.message;"
    ++ "\n            ROLLBACK TRANSACTION;\n    END;"

/-- Line 201: the staging-table drop statement. -/
def drop_query (project_id dataset_id table_id : String) : String :=
  "DROP TABLE `" ++ project_id ++ "." ++ dataset_id ++ "." ++ table_id ++ "_temptable`;"

/-- Function `writeDfToBq` (lines 4-57), the append loader: one schema fetch (possibly
failing, caught), one load-job submission with `WRITE_APPEND` /
`CREATE_IF_NEEDED`, and an immediate return of the job handle — no blocking
wait.  The job-id stem only enters the wall-clock-stamped job id, which is
outside this pure model. -/
def writeDfToBq (env : Env) (data : DataFrame)
    (project_id dataset_id table_id : String) : List Event :=
  let tableName := project_id ++ "." ++ dataset_id ++ "." ++ table_id
  let cfg := reconcileSchema env.liveSchema data.columns
  [Event.getSchema tableName,
   Event.submitLoad tableName "WRITE_APPEND" "CREATE_IF_NEEDED" cfg.2 cfg.1 data.columns]

/-- How one invocation of `writeDfToBq_with_merging` ends: the typed view of
the `raise Exception(...)` sites (lines 103, 152, 197, 209), an uncaught
Python-level error, or normal completion. -/
inductive Outcome where
  | configError (message : String)
  | loadError (errorCount : Nat) (errors : List String)
  | mergeError (errorCount : Nat) (errors : List String)
  | deleteError (errorCount : Nat) (errors : List String)
  | pythonError (message : String)
  | completed
deriving DecidableEq

/-- Observable result of one `writeDfToBq_with_merging` invocation: its
outcome, the ordered remote-call trace, the column list used in the
`UPDATE SET` clause (empty if the statement was never built), and the
caller-visible state of the two argument lists and the DataFrame after the
call returns or raises. -/
structure MergeRun where
  outcome : Outcome
  events : List Event
  updateCols : List String
  callerColsToCheckAfter : List String
  callerColsToUpdateAfter : List String
  dataAfter : DataFrame
deriving DecidableEq

/-- Function `writeDfToBq_with_merging` (lines 60-211). -/
def writeDfToBq_with_merging (env : Env) (data : DataFrame)
    (project_id dataset_id table_id : String)
    (cols_to_check cols_to_update : List String) : MergeRun :=
  let colsToCheck := effectiveColsToCheck data cols_to_check
  if (effectiveColsToCheck data cols_to_check).toList.length = 0 then
    { outcome := .configError "No columns to check were provided.",
      events := [],
      updateCols := [],
      callerColsToCheckAfter := cols_to_check,
      callerColsToUpdateAfter := cols_to_update,
      dataAfter := data }
  else
    let colsToUpdate := effectiveColsToUpdate data cols_to_update
    let tableName := project_id ++ "." ++ dataset_id ++ "." ++ table_id
    let tempTableName := tableName ++ "_temptable"
    let cfg := reconcileSchema env.liveSchema data.columns
    let af := allFields cfg.1 data
    let events₀ :=
      [Event.getSchema tableName,
       Event.submitLoad tempTableName "WRITE_TRUNCATE" "CREATE_IF_NEEDED" cfg.2 cfg.1 af]
    match env.loadResult with
    | .failed errs =>
        { outcome := .loadError errs.length errs,
          events := events₀ ++ [Event.awaitJob "temptable"],
          updateCols := [],
          callerColsToCheckAfter := cols_to_check,
          callerColsToUpdateAfter := cols_to_update,
          dataAfter := data }
    | .success =>
      let events₁ := events₀ ++ [Event.awaitJob "temptable", Event.getSchema tempTableName]
      let repeatedNames := repeated_fields env.tempSchema
      match extendedColsToUpdate colsToCheck colsToUpdate af with
      | .error msg =>
          { outcome := .pythonError msg,
            events := events₁,
            updateCols := [],
            callerColsToCheckAfter := cols_to_check,
            callerColsToUpdateAfter := cols_to_update,
            dataAfter := data }
      | .ok colsToUpdate₂ =>
        let callerUpdAfter :=
          if cols_to_update.length > 0 then colsToUpdate₂.toList else cols_to_update
        let sql := merge_query project_id dataset_id table_id
          colsToCheck.toList colsToUpdate₂.toList repeatedNames
        let events₂ := events₁ ++ [Event.submitQuery "merge_data" sql, Event.awaitJob "merge_data"]
        match env.mergeResult with
        | .failed errs =>
            { outcome := .mergeError errs.length errs,
              events := events₂,
              updateCols := colsToUpdate₂.toList,
              callerColsToCheckAfter := cols_to_check,
              callerColsToUpdateAfter := callerUpdAfter,
              dataAfter := data }
        | .success =>
          let events₃ := events₂ ++
            [Event.submitQuery "delete_temp_data" (drop_query project_id dataset_id table_id),
             Event.awaitJob "delete_temp_data"]
          match env.deleteResult with
          | .failed errs =>
              { outcome := .deleteError errs.length errs,
                events := events₃,
                updateCols := colsToUpdate₂.toList,
                callerColsToCheckAfter := cols_to_check,
                callerColsToUpdateAfter := callerUpdAfter,
                dataAfter := data }
          | .success =>
              { outcome := .completed,
                events := events₃,
                updateCols := colsToUpdate₂.toList,
                callerColsToCheckAfter := cols_to_check,
                callerColsToUpdateAfter := callerUpdAfter,
                dataAfter := data }

/-! ### Helper lemmas -/

theorem contains_eq_mem {α : Type _} [DecidableEq α] (l : List α) (a : α) :
    l.contains a = decide (a ∈ l) :=
  List.elem_eq_mem a l

/-- Erasing a batch of elements that all satisfy `p` from a list headed by an
element that does not satisfy `p` leaves the head in place. -/
theorem foldl_erase_cons_of_neg {α : Type _} [DecidableEq α] (p : α → Bool) (a : α)
    (ha : p a = false) :
    ∀ (es l : List α), (∀ e ∈ es, p e = true) →
      es.foldl (fun s f => s.erase f) (a :: l) =
        a :: es.foldl (fun s f => s.erase f) l := by
  intro es
  induction es with
  | nil => intro l _; rfl
  | cons e es ih =>
      intro l hall
      have hpe : p e = true := hall e (List.mem_cons_self e es)
      have hne : ¬((a == e) = true) := by
        intro hbeq
        have : a = e := eq_of_beq hbeq
        rw [this, hpe] at ha
        exact Bool.noConfusion ha
      have hstep : (a :: l).erase e = a :: l.erase e := List.erase_cons_tail hne
      calc (e :: es).foldl (fun s f => s.erase f) (a :: l)
          = es.foldl (fun s f => s.erase f) ((a :: l).erase e) := rfl
        _ = es.foldl (fun s f => s.erase f) (a :: l.erase e) := by rw [hstep]
        _ = a :: es.foldl (fun s f => s.erase f) (l.erase e) :=
            ih (l.erase e) (fun x hx => hall x (List.mem_cons_of_mem e hx))
        _ = a :: (e :: es).foldl (fun s f => s.erase f) l := rfl

/-- The source's remove-loop over `[x for x in l if p x]` computes exactly
`filter (not ∘ p) l`. -/
theorem foldl_erase_filter {α : Type _} [DecidableEq α] (p : α → Bool) (l : List α) :
    (l.filter p).foldl (fun s f => s.erase f) l = l.filter (fun x => !(p x)) := by
  induction l with
  | nil => rfl
  | cons a l ih =>
      cases hpa : p a with
      | true =>
          rw [List.filter_cons_of_pos hpa]
          have h1 : (a :: l.filter p).foldl (fun s f => s.erase f) (a :: l)
              = (l.filter p).foldl (fun s f => s.erase f) ((a :: l).erase a) := rfl
          rw [h1, List.erase_cons_head, ih, List.filter_cons_of_neg (by simp [hpa])]
      | false =>
          rw [List.filter_cons_of_neg (by simp [hpa])]
          rw [foldl_erase_cons_of_neg p a hpa (l.filter p) l
            (fun e he => List.of_mem_filter he)]
          rw [ih, List.filter_cons_of_pos (by simp [hpa])]

/-- Lines 124-127: removing from the live schema every field whose name is
not among the dataset columns is exactly filtering it to the fields whose
name is among the dataset columns, in schema order. -/
theorem removeFields_eq_filter (table_schema : List SchemaField) (columns : List String) :
    removeFields table_schema (table_schema.filter (fun f => !(columns.contains f.name))) =
      table_schema.filter (fun f => f.name ∈ columns) := by
  unfold removeFields
  rw [foldl_erase_filter (fun f => !(columns.contains f.name)) table_schema]
  exact List.filter_congr (fun f _ => by
    rw [Bool.not_not, contains_eq_mem])

/-- The schema handler on a successful fetch: pruned live schema, explicit
declaration, auto-detect off. -/
theorem reconcileSchema_ok (s : List SchemaField) (columns : List String) :
    reconcileSchema (.ok s) columns =
      (some (s.filter (fun f => f.name ∈ columns)), false) := by
  show (some (removeFields s (s.filter (fun f => !(columns.contains f.name)))), false) = _
  rw [removeFields_eq_filter]

/-- The schema handler on a failed fetch: no declared schema, auto-detect on. -/
theorem reconcileSchema_error (e : String) (columns : List String) :
    reconcileSchema (.error e) columns = (none, true) := rfl

/-- Helper: `pyAdd` on two plain Python lists is concatenation. -/
theorem pyAdd_pylist (a b : List String) :
    pyAdd (.pylist a) (.pylist b) = .ok (.pylist (a ++ b)) := rfl

/-- Line 162 with caller-supplied (plain-list) arguments: plain list
extension. -/
theorem extendedColsToUpdate_pylist (cc cu af : List String) :
    extendedColsToUpdate (.pylist cc) (.pylist cu) af =
      .ok (.pylist (cu ++ af.filter (fun col => !((cc ++ cu).contains col)))) := rfl

/-! ### Claim theorems -/

/-- C9: the MERGE statement text is a pure function of the table identities,
key columns, update columns and repeated-field list — two runs with identical
inputs produce byte-identical SQL text, with no dependence on ambient
state (the embedding of the statement builder takes no state argument). -/
theorem merge_statement_pure_function
    (p₁ p₂ d₁ d₂ t₁ t₂ : String) (k₁ k₂ u₁ u₂ r₁ r₂ : List String)
    (hp : p₁ = p₂) (hd : d₁ = d₂) (ht : t₁ = t₂)
    (hk : k₁ = k₂) (hu : u₁ = u₂) (hr : r₁ = r₂) :
    merge_query p₁ d₁ t₁ k₁ u₁ r₁ = merge_query p₂ d₂ t₂ k₂ u₂ r₂ := by
  subst hp hd ht hk hu hr
  rfl

theorem merge_statement_pure_function_witness :
    merge_query "p" "d" "t" ["k"] ["u"] ["r"] = merge_query "p" "d" "t" ["k"] ["u"] ["r"] :=
  merge_statement_pure_function "p" "p" "d" "d" "t" "t" ["k"] ["k"] ["u"] ["u"] ["r"] ["r"]
    rfl rfl rfl rfl rfl rfl

/-- C2: for every non-empty key-column list and staging schema, the `ON`
clause is built from exactly one `target.<col> = source.<col>` conjunct per
key column plus one per `REPEATED`-mode staging-schema field not already a
key column — key columns first, then the extra repeated fields in schema
order — joined by `AND` (the source's separator is `"\nAND "`). -/
theorem on_clause_structure (cols_to_check : List String)
    (temp_table_schema : List SchemaField) (hne : cols_to_check ≠ []) :
    on_clause_parts cols_to_check (repeated_fields temp_table_schema) =
      (cols_to_check ++
        (repeated_fields temp_table_schema).filter
          (fun col => col ∉ cols_to_check)).map eqConjunct
    ∧ on_clause cols_to_check (repeated_fields temp_table_schema) =
      String.intercalate "\nAND "
        ((cols_to_check ++
          (repeated_fields temp_table_schema).filter
            (fun col => col ∉ cols_to_check)).map eqConjunct) := by
  have hfilter : (repeated_fields temp_table_schema).filter
        (fun col => !(cols_to_check.contains col)) =
      (repeated_fields temp_table_schema).filter (fun col => decide (col ∉ cols_to_check)) :=
    List.filter_congr (fun x _ => by rw [contains_eq_mem, decide_not])
  constructor
  · unfold on_clause_parts
    rw [hfilter, List.map_append]
  · unfold on_clause on_clause_parts
    rw [hfilter, List.map_append]

theorem on_clause_structure_witness :
    (["k1", "k2"] : List String) ≠ [] ∧
    (on_clause_parts ["k1", "k2"]
        (repeated_fields [⟨"k2", "STRING", "REPEATED"⟩, ⟨"r", "STRING", "REPEATED"⟩,
          ⟨"s", "STRING", "NULLABLE"⟩]) =
      ((["k1", "k2"] : List String) ++
        (repeated_fields [⟨"k2", "STRING", "REPEATED"⟩, ⟨"r", "STRING", "REPEATED"⟩,
          ⟨"s", "STRING", "NULLABLE"⟩]).filter
          (fun col => col ∉ (["k1", "k2"] : List String))).map eqConjunct
    ∧ on_clause ["k1", "k2"]
        (repeated_fields [⟨"k2", "STRING", "REPEATED"⟩, ⟨"r", "STRING", "REPEATED"⟩,
          ⟨"s", "STRING", "NULLABLE"⟩]) =
      String.intercalate "\nAND "
        (((["k1", "k2"] : List String) ++
          (repeated_fields [⟨"k2", "STRING", "REPEATED"⟩, ⟨"r", "STRING", "REPEATED"⟩,
            ⟨"s", "STRING", "NULLABLE"⟩]).filter
            (fun col => col ∉ (["k1", "k2"] : List String))).map eqConjunct)) :=
  ⟨by decide,
   on_clause_structure ["k1", "k2"]
     [⟨"k2", "STRING", "REPEATED"⟩, ⟨"r", "STRING", "REPEATED"⟩, ⟨"s", "STRING", "NULLABLE"⟩]
     (by decide)⟩

/-- C8: for every invocation, the append loader submits exactly one load job,
against the destination table, with `WRITE_APPEND` / `CREATE_IF_NEEDED`
dispositions, and performs no blocking wait and no query submission — the
job handle is returned immediately. -/
theorem append_loader_single_nonblocking_load (env : Env) (data : DataFrame)
    (project_id dataset_id table_id : String) :
    (writeDfToBq env data project_id dataset_id table_id).filter Event.isSubmitLoad =
      [Event.submitLoad (project_id ++ "." ++ dataset_id ++ "." ++ table_id)
        "WRITE_APPEND" "CREATE_IF_NEEDED"
        (reconcileSchema env.liveSchema data.columns).2
        (reconcileSchema env.liveSchema data.columns).1 data.columns]
    ∧ (writeDfToBq env data project_id dataset_id table_id).filter Event.isAwait = []
    ∧ (writeDfToBq env data project_id dataset_id table_id).filter Event.isSubmitQuery = [] := by
  refine ⟨?_, ?_, ?_⟩ <;>
    simp [writeDfToBq, List.filter, Event.isSubmitLoad, Event.isAwait, Event.isSubmitQuery]

/-- C4: whenever the effective key-column set (caller-supplied or inferred
from the non-numeric dataset columns) is empty, the merge workflow raises the
configuration error before any remote call — the event trace is empty, so in
particular no MERGE statement (with an empty `ON` predicate or otherwise) is
ever submitted. -/
theorem empty_key_columns_config_error (env : Env) (data : DataFrame)
    (project_id dataset_id table_id : String) (cols_to_check cols_to_update : List String)
    (hempty : (effectiveColsToCheck data cols_to_check).toList = []) :
    (writeDfToBq_with_merging env data project_id dataset_id table_id
        cols_to_check cols_to_update).outcome
      = Outcome.configError "No columns to check were provided."
    ∧ (writeDfToBq_with_merging env data project_id dataset_id table_id
        cols_to_check cols_to_update).events = [] := by
  have hlen : (effectiveColsToCheck data cols_to_check).toList.length = 0 := by
    rw [hempty]; rfl
  refine ⟨?_, ?_⟩ <;>
    · simp only [writeDfToBq_with_merging]
      rw [if_pos hlen]

theorem empty_key_columns_config_error_witness :
    (effectiveColsToCheck ⟨[("n", Dtype.floatT)]⟩ []).toList = [] ∧
    (writeDfToBq_with_merging ⟨Except.error "e", [], .success, .success, .success⟩
        ⟨[("n", Dtype.floatT)]⟩ "p" "d" "t" [] []).outcome
      = Outcome.configError "No columns to check were provided." ∧
    (writeDfToBq_with_merging ⟨Except.error "e", [], .success, .success, .success⟩
        ⟨[("n", Dtype.floatT)]⟩ "p" "d" "t" [] []).events = [] :=
  ⟨rfl,
   (empty_key_columns_config_error ⟨Except.error "e", [], .success, .success, .success⟩
      ⟨[("n", Dtype.floatT)]⟩ "p" "d" "t" [] [] rfl).1,
   (empty_key_columns_config_error ⟨Except.error "e", [], .success, .success, .success⟩
      ⟨[("n", Dtype.floatT)]⟩ "p" "d" "t" [] [] rfl).2⟩

/-- C1: whenever the staging load job completes with a failure, the merge
workflow raises the load error carrying the count and list of the
remote-reported errors, and no statement at all is submitted to the
query-submission collaborator — the pipeline halts before the merge and drop
stages. -/
theorem load_failure_halts_pipeline (env : Env) (data : DataFrame)
    (project_id dataset_id table_id : String) (cols_to_check cols_to_update : List String)
    (errs : List String)
    (hkeys : (effectiveColsToCheck data cols_to_check).toList ≠ [])
    (hload : env.loadResult = .failed errs) :
    (writeDfToBq_with_merging env data project_id dataset_id table_id
        cols_to_check cols_to_update).outcome = Outcome.loadError errs.length errs
    ∧ (writeDfToBq_with_merging env data project_id dataset_id table_id
        cols_to_check cols_to_update).events.filter Event.isSubmitQuery = [] := by
  have hlen : ¬ ((effectiveColsToCheck data cols_to_check).toList.length = 0) :=
    fun h => hkeys (List.length_eq_zero.mp h)
  refine ⟨?_, ?_⟩ <;>
    · simp only [writeDfToBq_with_merging]
      rw [if_neg hlen, hload]
      try rfl

theorem load_failure_halts_pipeline_witness :
    (effectiveColsToCheck ⟨[("a", Dtype.stringT)]⟩ ["a"]).toList ≠ [] ∧
    (writeDfToBq_with_merging ⟨Except.error "e", [], .failed ["boom"], .success, .success⟩
        ⟨[("a", Dtype.stringT)]⟩ "p" "d" "t" ["a"] ["u"]).outcome
      = Outcome.loadError 1 ["boom"] ∧
    (writeDfToBq_with_merging ⟨Except.error "e", [], .failed ["boom"], .success, .success⟩
        ⟨[("a", Dtype.stringT)]⟩ "p" "d" "t" ["a"] ["u"]).events.filter Event.isSubmitQuery
      = [] :=
  ⟨by decide,
   (load_failure_halts_pipeline ⟨Except.error "e", [], .failed ["boom"], .success, .success⟩
      ⟨[("a", Dtype.stringT)]⟩ "p" "d" "t" ["a"] ["u"] ["boom"] (by decide) rfl).1,
   (load_failure_halts_pipeline ⟨Except.error "e", [], .failed ["boom"], .success, .success⟩
      ⟨[("a", Dtype.stringT)]⟩ "p" "d" "t" ["a"] ["u"] ["boom"] (by decide) rfl).2⟩

/-- C3: whenever the staging load succeeds but the merge job completes with a
failure, the workflow raises the merge error carrying the remote error count
and list; the only statement ever submitted to the query collaborator is the
merge statement, and in particular no `delete_temp_data` drop statement is
submitted — the staging table is left behind. -/
theorem merge_failure_skips_cleanup (env : Env) (data : DataFrame)
    (project_id dataset_id table_id : String) (cols_to_check cols_to_update : List String)
    (errs : List String) (ext : PyStrSeq)
    (hkeys : (effectiveColsToCheck data cols_to_check).toList ≠ [])
    (hload : env.loadResult = .success)
    (hext : extendedColsToUpdate (effectiveColsToCheck data cols_to_check)
        (effectiveColsToUpdate data cols_to_update)
        (allFields (reconcileSchema env.liveSchema data.columns).1 data) = .ok ext)
    (hmerge : env.mergeResult = .failed errs) :
    (writeDfToBq_with_merging env data project_id dataset_id table_id
        cols_to_check cols_to_update).outcome = Outcome.mergeError errs.length errs
    ∧ (writeDfToBq_with_merging env data project_id dataset_id table_id
        cols_to_check cols_to_update).events.filter Event.isSubmitQuery =
      [Event.submitQuery "merge_data"
        (merge_query project_id dataset_id table_id
          (effectiveColsToCheck data cols_to_check).toList ext.toList
          (repeated_fields env.tempSchema))]
    ∧ ∀ sql, Event.submitQuery "delete_temp_data" sql ∉
        (writeDfToBq_with_merging env data project_id dataset_id table_id
          cols_to_check cols_to_update).events := by
  have hlen : ¬ ((effectiveColsToCheck data cols_to_check).toList.length = 0) :=
    fun h => hkeys (List.length_eq_zero.mp h)
  refine ⟨?_, ?_, ?_⟩
  · simp only [writeDfToBq_with_merging]
    rw [if_neg hlen, hload, hext, hmerge]
    try rfl
  · simp only [writeDfToBq_with_merging]
    rw [if_neg hlen, hload, hext, hmerge]
    try rfl
  · simp only [writeDfToBq_with_merging]
    rw [if_neg hlen, hload, hext, hmerge]
    intro sql
    simp [Event.isSubmitQuery]

theorem merge_failure_skips_cleanup_witness :
    (effectiveColsToCheck ⟨[("a", Dtype.stringT), ("b", Dtype.floatT)]⟩ ["a"]).toList ≠ [] ∧
    (writeDfToBq_with_merging ⟨Except.error "e", [], .success, .failed ["m"], .success⟩
        ⟨[("a", Dtype.stringT), ("b", Dtype.floatT)]⟩ "p" "d" "t" ["a"] ["b"]).outcome
      = Outcome.mergeError 1 ["m"] ∧
    (writeDfToBq_with_merging ⟨Except.error "e", [], .success, .failed ["m"], .success⟩
        ⟨[("a", Dtype.stringT), ("b", Dtype.floatT)]⟩ "p" "d" "t" ["a"] ["b"]).events.filter
        Event.isSubmitQuery
      = [Event.submitQuery "merge_data"
          (merge_query "p" "d" "t"
            (effectiveColsToCheck ⟨[("a", Dtype.stringT), ("b", Dtype.floatT)]⟩ ["a"]).toList
            (PyStrSeq.pylist ["b"]).toList (repeated_fields []))] ∧
    Event.submitQuery "delete_temp_data" (drop_query "p" "d" "t") ∉
      (writeDfToBq_with_merging ⟨Except.error "e", [], .success, .failed ["m"], .success⟩
        ⟨[("a", Dtype.stringT), ("b", Dtype.floatT)]⟩ "p" "d" "t" ["a"] ["b"]).events :=
  ⟨by decide,
   (merge_failure_skips_cleanup ⟨Except.error "e", [], .success, .failed ["m"], .success⟩
      ⟨[("a", Dtype.stringT), ("b", Dtype.floatT)]⟩ "p" "d" "t" ["a"] ["b"] ["m"]
      (PyStrSeq.pylist ["b"]) (by decide) rfl rfl rfl).1,
   (merge_failure_skips_cleanup ⟨Except.error "e", [], .success, .failed ["m"], .success⟩
      ⟨[("a", Dtype.stringT), ("b", Dtype.floatT)]⟩ "p" "d" "t" ["a"] ["b"] ["m"]
      (PyStrSeq.pylist ["b"]) (by decide) rfl rfl rfl).2.1,
   (merge_failure_skips_cleanup ⟨Except.error "e", [], .success, .failed ["m"], .success⟩
      ⟨[("a", Dtype.stringT), ("b", Dtype.floatT)]⟩ "p" "d" "t" ["a"] ["b"] ["m"]
      (PyStrSeq.pylist ["b"]) (by decide) rfl rfl rfl).2.2 (drop_query "p" "d" "t")⟩

/-- C6: for both loaders, a successful live-schema fetch makes the load job
declare exactly the live schema pruned (in schema order) to the fields whose
names occur among the dataset's columns with auto-detect disabled, while any
schema-fetch failure makes the load job run with auto-detect enabled and no
declared schema — and in both cases the load is still submitted, i.e. no
schema-stage error reaches the caller. -/
theorem schema_reconciliation_behaviour (env : Env) (data : DataFrame)
    (project_id dataset_id table_id : String) (cols_to_check cols_to_update : List String) :
    (∀ s, env.liveSchema = .ok s →
      writeDfToBq env data project_id dataset_id table_id =
        [Event.getSchema (project_id ++ "." ++ dataset_id ++ "." ++ table_id),
         Event.submitLoad (project_id ++ "." ++ dataset_id ++ "." ++ table_id)
           "WRITE_APPEND" "CREATE_IF_NEEDED" false
           (some (s.filter (fun f => f.name ∈ data.columns))) data.columns])
    ∧ (∀ e, env.liveSchema = .error e →
      writeDfToBq env data project_id dataset_id table_id =
        [Event.getSchema (project_id ++ "." ++ dataset_id ++ "." ++ table_id),
         Event.submitLoad (project_id ++ "." ++ dataset_id ++ "." ++ table_id)
           "WRITE_APPEND" "CREATE_IF_NEEDED" true none data.columns])
    ∧ (∀ s, env.liveSchema = .ok s →
        (effectiveColsToCheck data cols_to_check).toList ≠ [] →
      (writeDfToBq_with_merging env data project_id dataset_id table_id cols_to_check
          cols_to_update).events.filter Event.isSubmitLoad =
        [Event.submitLoad (project_id ++ "." ++ dataset_id ++ "." ++ table_id ++ "_temptable")
          "WRITE_TRUNCATE" "CREATE_IF_NEEDED" false
          (some (s.filter (fun f => f.name ∈ data.columns)))
          (allFields (some (s.filter (fun f => f.name ∈ data.columns))) data)])
    ∧ (∀ e, env.liveSchema = .error e →
        (effectiveColsToCheck data cols_to_check).toList ≠ [] →
      (writeDfToBq_with_merging env data project_id dataset_id table_id cols_to_check
          cols_to_update).events.filter Event.isSubmitLoad =
        [Event.submitLoad (project_id ++ "." ++ dataset_id ++ "." ++ table_id ++ "_temptable")
          "WRITE_TRUNCATE" "CREATE_IF_NEEDED" true none data.columns]) := by
  refine ⟨?_, ?_, ?_, ?_⟩
  · intro s hs
    simp only [writeDfToBq]
    rw [hs, reconcileSchema_ok]
  · intro e he
    simp only [writeDfToBq]
    rw [he, reconcileSchema_error]
  · intro s hs hkeys
    have hlen : ¬ ((effectiveColsToCheck data cols_to_check).toList.length = 0) :=
      fun h => hkeys (List.length_eq_zero.mp h)
    simp only [writeDfToBq_with_merging]
    rw [if_neg hlen, hs, reconcileSchema_ok]
    repeat' split
    all_goals simp [Event.isSubmitLoad, List.filter, allFields]
  · intro e he hkeys
    have hlen : ¬ ((effectiveColsToCheck data cols_to_check).toList.length = 0) :=
      fun h => hkeys (List.length_eq_zero.mp h)
    simp only [writeDfToBq_with_merging]
    rw [if_neg hlen, he, reconcileSchema_error]
    repeat' split
    all_goals simp [Event.isSubmitLoad, List.filter, allFields]

theorem schema_reconciliation_behaviour_witness :
    (writeDfToBq ⟨Except.ok [⟨"a", "STRING", "NULLABLE"⟩, ⟨"z", "STRING", "NULLABLE"⟩], [],
        .success, .success, .success⟩ ⟨[("a", Dtype.stringT)]⟩ "p" "d" "t" =
      [Event.getSchema ("p" ++ "." ++ "d" ++ "." ++ "t"),
       Event.submitLoad ("p" ++ "." ++ "d" ++ "." ++ "t") "WRITE_APPEND" "CREATE_IF_NEEDED"
         false
         (some (([⟨"a", "STRING", "NULLABLE"⟩, ⟨"z", "STRING", "NULLABLE"⟩] :
            List SchemaField).filter
            (fun f => f.name ∈ (⟨[("a", Dtype.stringT)]⟩ : DataFrame).columns)))
         (⟨[("a", Dtype.stringT)]⟩ : DataFrame).columns])
    ∧ (writeDfToBq ⟨Except.error "boom", [], .success, .success, .success⟩
        ⟨[("a", Dtype.stringT)]⟩ "p" "d" "t" =
      [Event.getSchema ("p" ++ "." ++ "d" ++ "." ++ "t"),
       Event.submitLoad ("p" ++ "." ++ "d" ++ "." ++ "t") "WRITE_APPEND" "CREATE_IF_NEEDED"
         true none (⟨[("a", Dtype.stringT)]⟩ : DataFrame).columns])
    ∧ ((writeDfToBq_with_merging ⟨Except.ok [⟨"a", "STRING", "NULLABLE"⟩,
          ⟨"z", "STRING", "NULLABLE"⟩], [], .success, .success, .success⟩
        ⟨[("a", Dtype.stringT)]⟩ "p" "d" "t" ["a"] ["u"]).events.filter Event.isSubmitLoad =
      [Event.submitLoad ("p" ++ "." ++ "d" ++ "." ++ "t" ++ "_temptable")
        "WRITE_TRUNCATE" "CREATE_IF_NEEDED" false
        (some (([⟨"a", "STRING", "NULLABLE"⟩, ⟨"z", "STRING", "NULLABLE"⟩] :
          List SchemaField).filter
          (fun f => f.name ∈ (⟨[("a", Dtype.stringT)]⟩ : DataFrame).columns)))
        (allFields (some (([⟨"a", "STRING", "NULLABLE"⟩, ⟨"z", "STRING", "NULLABLE"⟩] :
          List SchemaField).filter
          (fun f => f.name ∈ (⟨[("a", Dtype.stringT)]⟩ : DataFrame).columns)))
          ⟨[("a", Dtype.stringT)]⟩)])
    ∧ ((writeDfToBq_with_merging ⟨Except.error "boom", [], .success, .success, .success⟩
        ⟨[("a", Dtype.stringT)]⟩ "p" "d" "t" ["a"] ["u"]).events.filter Event.isSubmitLoad =
      [Event.submitLoad ("p" ++ "." ++ "d" ++ "." ++ "t" ++ "_temptable")
        "WRITE_TRUNCATE" "CREATE_IF_NEEDED" true none
        (⟨[("a", Dtype.stringT)]⟩ : DataFrame).columns]) :=
  ⟨(schema_reconciliation_behaviour ⟨Except.ok [⟨"a", "STRING", "NULLABLE"⟩,
      ⟨"z", "STRING", "NULLABLE"⟩], [], .success, .success, .success⟩
      ⟨[("a", Dtype.stringT)]⟩ "p" "d" "t" ["a"] ["u"]).1
      [⟨"a", "STRING", "NULLABLE"⟩, ⟨"z", "STRING", "NULLABLE"⟩] rfl,
   (schema_reconciliation_behaviour ⟨Except.error "boom", [], .success, .success, .success⟩
      ⟨[("a", Dtype.stringT)]⟩ "p" "d" "t" ["a"] ["u"]).2.1 "boom" rfl,
   (schema_reconciliation_behaviour ⟨Except.ok [⟨"a", "STRING", "NULLABLE"⟩,
      ⟨"z", "STRING", "NULLABLE"⟩], [], .success, .success, .success⟩
      ⟨[("a", Dtype.stringT)]⟩ "p" "d" "t" ["a"] ["u"]).2.2.1
      [⟨"a", "STRING", "NULLABLE"⟩, ⟨"z", "STRING", "NULLABLE"⟩] rfl (by decide),
   (schema_reconciliation_behaviour ⟨Except.error "boom", [], .success, .success, .success⟩
      ⟨[("a", Dtype.stringT)]⟩ "p" "d" "t" ["a"] ["u"]).2.2.2 "boom" rfl (by decide)⟩

/-- Every effective (loaded) column ends up either among the key columns or
in the extended update-column list. -/
theorem mem_check_or_extended (cc cu af : List String) :
    ∀ col ∈ af, col ∈ cc ∨ col ∈ cu ++ af.filter (fun c => !((cc ++ cu).contains c)) := by
  intro col hcol
  by_cases h1 : col ∈ cc
  · exact Or.inl h1
  · by_cases h2 : col ∈ cu
    · exact Or.inr (List.mem_append_left _ h2)
    · refine Or.inr (List.mem_append_right _ ?_)
      refine List.mem_filter.mpr ⟨hcol, ?_⟩
      rw [contains_eq_mem]
      simp [List.mem_append, h1, h2]

/-- C5, counterexample: a dataset column absent from the fetched live schema
(`"c"` below) is dropped from `all_fields`, hence never added to
`UpdateColumns` — it ends up in neither the match predicate nor the
`UPDATE SET` list, contradicting the claim that every *dataset* column is
covered. -/
theorem update_columns_dataset_column_dropped :
    (writeDfToBq_with_merging
        ⟨Except.ok [⟨"a", "STRING", "NULLABLE"⟩, ⟨"b", "FLOAT", "NULLABLE"⟩], [],
          .success, .success, .success⟩
        ⟨[("a", Dtype.stringT), ("b", Dtype.floatT), ("c", Dtype.floatT)]⟩
        "p" "d" "t" ["a"] ["b"]).updateCols = ["b"]
    ∧ "c" ∈ (⟨[("a", Dtype.stringT), ("b", Dtype.floatT), ("c", Dtype.floatT)]⟩ :
        DataFrame).columns
    ∧ "c" ∉ (["a"] : List String)
    ∧ "c" ∉ (writeDfToBq_with_merging
        ⟨Except.ok [⟨"a", "STRING", "NULLABLE"⟩, ⟨"b", "FLOAT", "NULLABLE"⟩], [],
          .success, .success, .success⟩
        ⟨[("a", Dtype.stringT), ("b", Dtype.floatT), ("c", Dtype.floatT)]⟩
        "p" "d" "t" ["a"] ["b"]).updateCols := by
  refine ⟨by decide, by decide, by decide, by decide⟩

/-- C5, amended: when the caller supplies non-empty `cols_to_check` and
`cols_to_update` lists and the staging load succeeds, `UpdateColumns` is
extended exactly once with every *effective/loaded* column (`all_fields`:
the pruned live-schema names when a non-empty live schema was fetched,
otherwise the dataset's columns) not already present in
`KeyColumns ++ UpdateColumns`, so every loaded column then appears either in
the match predicate or in the `UPDATE SET` list.  Both scopings are forced:
dataset columns outside a fetched live schema are dropped from load and
update alike (the counterexample), runs that stop before line 162 extend
nothing, and on the default-inference path (either list empty) line 162 is
pandas Index element-wise string arithmetic, not a list extension, so no
coverage holds there (see the C7 evidence). -/
theorem update_columns_extension (env : Env) (data : DataFrame)
    (project_id dataset_id table_id : String) (cols_to_check cols_to_update : List String)
    (hcc : cols_to_check ≠ []) (hcu : cols_to_update ≠ [])
    (hload : env.loadResult = .success) :
    (writeDfToBq_with_merging env data project_id dataset_id table_id
        cols_to_check cols_to_update).updateCols =
      cols_to_update ++
        (allFields (reconcileSchema env.liveSchema data.columns).1 data).filter
          (fun col => !((cols_to_check ++ cols_to_update).contains col))
    ∧ ∀ col ∈ allFields (reconcileSchema env.liveSchema data.columns).1 data,
        col ∈ cols_to_check ∨
          col ∈ (writeDfToBq_with_merging env data project_id dataset_id table_id
            cols_to_check cols_to_update).updateCols := by
  have hec : effectiveColsToCheck data cols_to_check = .pylist cols_to_check := by
    unfold effectiveColsToCheck
    rw [if_pos (List.length_pos.mpr hcc)]
  have heu : effectiveColsToUpdate data cols_to_update = .pylist cols_to_update := by
    unfold effectiveColsToUpdate
    rw [if_pos (List.length_pos.mpr hcu)]
  have hlen : ¬ ((effectiveColsToCheck data cols_to_check).toList.length = 0) := by
    rw [hec]
    exact fun h => hcc (List.length_eq_zero.mp h)
  have hupd : (writeDfToBq_with_merging env data project_id dataset_id table_id
      cols_to_check cols_to_update).updateCols =
      cols_to_update ++
        (allFields (reconcileSchema env.liveSchema data.columns).1 data).filter
          (fun col => !((cols_to_check ++ cols_to_update).contains col)) := by
    simp only [writeDfToBq_with_merging]
    rw [if_neg hlen, hload, hec, heu, extendedColsToUpdate_pylist]
    rcases env.mergeResult with _ | merrs
    · rcases env.deleteResult with _ | derrs <;> rfl
    · rfl
  refine ⟨hupd, ?_⟩
  intro col hcol
  rcases mem_check_or_extended cols_to_check cols_to_update
      (allFields (reconcileSchema env.liveSchema data.columns).1 data) col hcol with h | h
  · exact Or.inl h
  · right
    rw [hupd]
    exact h

theorem update_columns_extension_witness :
    ((["a"] : List String) ≠ [] ∧ (["b"] : List String) ≠ []) ∧
    (writeDfToBq_with_merging ⟨Except.error "e", [], .success, .success, .success⟩
        ⟨[("a", Dtype.stringT), ("b", Dtype.floatT), ("d", Dtype.floatT)]⟩
        "p" "d" "t" ["a"] ["b"]).updateCols =
      ["b"] ++
        (allFields (reconcileSchema (Except.error "e")
            (⟨[("a", Dtype.stringT), ("b", Dtype.floatT), ("d", Dtype.floatT)]⟩ :
              DataFrame).columns).1
          ⟨[("a", Dtype.stringT), ("b", Dtype.floatT), ("d", Dtype.floatT)]⟩).filter
          (fun col => !(((["a"] : List String) ++ ["b"]).contains col)) ∧
    ("d" ∈ (["a"] : List String) ∨
      "d" ∈ (writeDfToBq_with_merging ⟨Except.error "e", [], .success, .success, .success⟩
        ⟨[("a", Dtype.stringT), ("b", Dtype.floatT), ("d", Dtype.floatT)]⟩
        "p" "d" "t" ["a"] ["b"]).updateCols) :=
  ⟨⟨by decide, by decide⟩,
   (update_columns_extension ⟨Except.error "e", [], .success, .success, .success⟩
      ⟨[("a", Dtype.stringT), ("b", Dtype.floatT), ("d", Dtype.floatT)]⟩
      "p" "d" "t" ["a"] ["b"] (by decide) (by decide) rfl).1,
   (update_columns_extension ⟨Except.error "e", [], .success, .success, .success⟩
      ⟨[("a", Dtype.stringT), ("b", Dtype.floatT), ("d", Dtype.floatT)]⟩
      "p" "d" "t" ["a"] ["b"] (by decide) (by decide) rfl).2 "d" (by decide)⟩

/-- C7: on the all-defaults path the inferred key/update split and the `ON`
clause are as the spec says, but the `UPDATE SET` list is not
`[amount]`: both inferred column sets are pandas Index objects, so the `+`
and `+=` of line 162 perform element-wise string concatenation (with
broadcasting), and the statement updates the nonsense columns
`amountid`, `amountregion`, `amountamount` instead of `amount`. -/
theorem default_inference_pandas_index_addition :
    (effectiveColsToCheck ⟨[("id", Dtype.stringT), ("region", Dtype.stringT),
        ("amount", Dtype.floatT)]⟩ []).toList = ["id", "region"]
    ∧ (effectiveColsToUpdate ⟨[("id", Dtype.stringT), ("region", Dtype.stringT),
        ("amount", Dtype.floatT)]⟩ []).toList = ["amount"]
    ∧ on_clause ["id", "region"] [] =
        "target.id = source.id\nAND target.region = source.region"
    ∧ (writeDfToBq_with_merging
        ⟨Except.error "nf",
          [⟨"id", "STRING", "NULLABLE"⟩, ⟨"region", "STRING", "NULLABLE"⟩,
           ⟨"amount", "FLOAT", "NULLABLE"⟩], .success, .success, .success⟩
        ⟨[("id", Dtype.stringT), ("region", Dtype.stringT), ("amount", Dtype.floatT)]⟩
        "p" "d" "t" [] []).updateCols = ["amountid", "amountregion", "amountamount"]
    ∧ updateSetClause ["amountid", "amountregion", "amountamount"] ≠
        "target.amount = source.amount" := by
  refine ⟨by decide, by decide, by decide, by decide, by decide⟩

/-- C10, counterexample: with caller-supplied `cols_to_check = ["a"]` and
`cols_to_update = ["b"]` over a dataset with exactly the columns `a`, `b`,
there are no unclassified columns, so the caller-visible `cols_to_update`
list is *not* longer after the call than before it. -/
theorem caller_list_not_longer_counterexample :
    ¬ ((writeDfToBq_with_merging ⟨Except.error "x", [], .success, .success, .success⟩
        ⟨[("a", Dtype.stringT), ("b", Dtype.floatT)]⟩
        "p" "d" "t" ["a"] ["b"]).callerColsToUpdateAfter.length
      > (["b"] : List String).length) := by decide

/-- C10, amended: the caller's `cols_to_check` list and the DataFrame are
never mutated; when the caller supplies non-empty `cols_to_check` and
`cols_to_update` lists and the staging load succeeds, the unclassified
columns are appended in place to the caller's `cols_to_update` object, which
afterwards equals the original list followed by the unclassified columns —
strictly longer than before exactly when at least one unclassified column
exists. -/
theorem caller_visible_state_after_call :
    (∀ (env : Env) (data : DataFrame) (project_id dataset_id table_id : String)
        (cols_to_check cols_to_update : List String),
      (writeDfToBq_with_merging env data project_id dataset_id table_id
        cols_to_check cols_to_update).callerColsToCheckAfter = cols_to_check
      ∧ (writeDfToBq_with_merging env data project_id dataset_id table_id
        cols_to_check cols_to_update).dataAfter = data)
    ∧ (∀ (env : Env) (data : DataFrame) (project_id dataset_id table_id : String)
        (cols_to_check cols_to_update : List String),
        cols_to_check ≠ [] → cols_to_update ≠ [] → env.loadResult = .success →
      (writeDfToBq_with_merging env data project_id dataset_id table_id
          cols_to_check cols_to_update).callerColsToUpdateAfter =
        cols_to_update ++
          (allFields (reconcileSchema env.liveSchema data.columns).1 data).filter
            (fun col => !((cols_to_check ++ cols_to_update).contains col))
      ∧ ((writeDfToBq_with_merging env data project_id dataset_id table_id
            cols_to_check cols_to_update).callerColsToUpdateAfter.length >
          cols_to_update.length ↔
        (allFields (reconcileSchema env.liveSchema data.columns).1 data).filter
          (fun col => !((cols_to_check ++ cols_to_update).contains col)) ≠ [])) := by
  constructor
  · intro env data project_id dataset_id table_id cols_to_check cols_to_update
    simp only [writeDfToBq_with_merging]
    repeat' split
    all_goals exact ⟨rfl, rfl⟩
  · intro env data project_id dataset_id table_id cols_to_check cols_to_update hcc hcu hload
    have hec : effectiveColsToCheck data cols_to_check = .pylist cols_to_check := by
      unfold effectiveColsToCheck
      rw [if_pos (List.length_pos.mpr hcc)]
    have heu : effectiveColsToUpdate data cols_to_update = .pylist cols_to_update := by
      unfold effectiveColsToUpdate
      rw [if_pos (List.length_pos.mpr hcu)]
    have hlen : ¬ ((effectiveColsToCheck data cols_to_check).toList.length = 0) := by
      rw [hec]
      exact fun h => hcc (List.length_eq_zero.mp h)
    have hupd : (writeDfToBq_with_merging env data project_id dataset_id table_id
        cols_to_check cols_to_update).callerColsToUpdateAfter =
        cols_to_update ++
          (allFields (reconcileSchema env.liveSchema data.columns).1 data).filter
            (fun col => !((cols_to_check ++ cols_to_update).contains col)) := by
      simp only [writeDfToBq_with_merging]
      rw [if_neg hlen, hload, hec, heu, extendedColsToUpdate_pylist]
      simp only [if_pos (List.length_pos.mpr hcu)]
      rcases env.mergeResult with _ | merrs
      · rcases env.deleteResult with _ | derrs <;> rfl
      · rfl
    refine ⟨hupd, ?_⟩
    rw [hupd, List.length_append, gt_iff_lt, lt_add_iff_pos_right, List.length_pos]

theorem caller_visible_state_after_call_witness :
    ((writeDfToBq_with_merging ⟨Except.error "e", [], .success, .success, .success⟩
        ⟨[("a", Dtype.stringT), ("b", Dtype.floatT), ("w", Dtype.floatT)]⟩
        "p" "d" "t" ["a"] ["b"]).callerColsToCheckAfter = ["a"]
      ∧ (writeDfToBq_with_merging ⟨Except.error "e", [], .success, .success, .success⟩
        ⟨[("a", Dtype.stringT), ("b", Dtype.floatT), ("w", Dtype.floatT)]⟩
        "p" "d" "t" ["a"] ["b"]).dataAfter =
          ⟨[("a", Dtype.stringT), ("b", Dtype.floatT), ("w", Dtype.floatT)]⟩) ∧
    (writeDfToBq_with_merging ⟨Except.error "e", [], .success, .success, .success⟩
        ⟨[("a", Dtype.stringT), ("b", Dtype.floatT), ("w", Dtype.floatT)]⟩
        "p" "d" "t" ["a"] ["b"]).callerColsToUpdateAfter =
      ["b"] ++
        (allFields (reconcileSchema (Except.error "e")
            (⟨[("a", Dtype.stringT), ("b", Dtype.floatT), ("w", Dtype.floatT)]⟩ :
              DataFrame).columns).1
          ⟨[("a", Dtype.stringT), ("b", Dtype.floatT), ("w", Dtype.floatT)]⟩).filter
          (fun col => !(((["a"] : List String) ++ ["b"]).contains col)) ∧
    ((writeDfToBq_with_merging ⟨Except.error "e", [], .success, .success, .success⟩
        ⟨[("a", Dtype.stringT), ("b", Dtype.floatT), ("w", Dtype.floatT)]⟩
        "p" "d" "t" ["a"] ["b"]).callerColsToUpdateAfter.length >
      (["b"] : List String).length ↔
    (allFields (reconcileSchema (Except.error "e")
        (⟨[("a", Dtype.stringT), ("b", Dtype.floatT), ("w", Dtype.floatT)]⟩ :
          DataFrame).columns).1
      ⟨[("a", Dtype.stringT), ("b", Dtype.floatT), ("w", Dtype.floatT)]⟩).filter
      (fun col => !(((["a"] : List String) ++ ["b"]).contains col)) ≠ []) :=
  ⟨caller_visible_state_after_call.1 ⟨Except.error "e", [], .success, .success, .success⟩
     ⟨[("a", Dtype.stringT), ("b", Dtype.floatT), ("w", Dtype.floatT)]⟩
     "p" "d" "t" ["a"] ["b"],
   (caller_visible_state_after_call.2 ⟨Except.error "e", [], .success, .success, .success⟩
     ⟨[("a", Dtype.stringT), ("b", Dtype.floatT), ("w", Dtype.floatT)]⟩
     "p" "d" "t" ["a"] ["b"] (by decide) (by decide) rfl).1,
   (caller_visible_state_after_call.2 ⟨Except.error "e", [], .success, .success, .success⟩
     ⟨[("a", Dtype.stringT), ("b", Dtype.floatT), ("w", Dtype.floatT)]⟩
     "p" "d" "t" ["a"] ["b"] (by decide) (by decide) rfl).2⟩

end WriteToBq
